import Mathlib

/-!
Shallow embedding of the emcy-sdk telemetry collector and transport
(src: telemetry.ts `EmcyTelemetry`, transport.ts `TelemetryTransport`).

JS values that flow through the SDK untyped are modelled by `Value`;
fetch outcomes by `FetchOutcome`; the collector's mutable state by the
`EmcyTelemetry` structure, with each method an explicit state-passing
function that also returns the batch (if any) handed to the transport.
-/

/-- A JS runtime value, as far as the SDK inspects one: numbers, strings,
null/undefined, and plain objects as association lists of fields. -/
inductive Value where
  | num (n : Int)
  | str (s : String)
  | null
  | obj (fields : List (String × Value))

/-- Models JS `String(v)` for the values above (default conversions). -/
def Value.toStr : Value → String
  | Value.num n => toString n
  | Value.str s => s
  | Value.null => "null"
  | Value.obj _ => "[object Object]"

/-- A thrown JS value: either an `Error` instance (message, optional
`code` property, optional stack) or any other value. -/
inductive Thrown where
  | err (message : String) (code : Option String) (stack : Option String)
  | other (v : Value)

/-- The `output` field of a ToolInvocation: `{status?, body?}`. -/
structure Output where
  status : Option Value
  body : Option Value

/-- The `error` field of a ToolInvocation: `{message, code?, stack?}`. -/
structure ErrObj where
  message : String
  code : Option String
  stack : Option String
deriving DecidableEq

/-- Per-invocation metadata, `types.ts ToolInvocation.metadata`. -/
structure InvMetadata where
  sessionId : Option String
  agentId : Option String
  userId : Option String
  serverName : Option String
  serverVersion : Option String
  mcpServerId : Option String

/-- `types.ts ToolInvocation`. -/
structure ToolInvocation where
  invocationId : String
  toolName : String
  timestamp : String
  duration : Nat
  success : Bool
  input : Option Value
  output : Option Output
  error : Option ErrObj
  metadata : Option InvMetadata

/-- `types.ts TelemetryBatch`. -/
structure TelemetryBatch where
  apiKey : String
  mcpServerId : Option String
  timestamp : String
  invocations : List ToolInvocation

/-- `types.ts EmcyConfig`: optional fields are `Option`; absent = `none`. -/
structure EmcyConfig where
  apiKey : String
  endpoint : Option String
  mcpServerId : Option String
  batchSize : Option Nat
  flushInterval : Option Nat
  debug : Option Bool
deriving DecidableEq

def DEFAULT_BATCH_SIZE : Nat := 10

def DEFAULT_FLUSH_INTERVAL : Nat := 5000

def DEFAULT_ENDPOINT : String := "https://api.emcy.ai/v1/telemetry"

def MAX_RETRIES : Nat := 3

def RETRY_DELAY_MS : Nat := 1000

/-- JS `x || d` for an optional number field: absent or `0` (falsy) gives
the default. -/
def orDefaultNat (v : Option Nat) (d : Nat) : Nat :=
  match v with
  | none => d
  | some n => if n = 0 then d else n

/-- JS `x || d` for an optional string field: absent or empty (falsy)
gives the default. -/
def orDefaultStr (v : Option String) (d : String) : String :=
  match v with
  | none => d
  | some s => if s = "" then d else s

/-- JS truthiness of an optional string (`if (config.mcpServerId)`). -/
def isTruthyStr (v : Option String) : Bool :=
  match v with
  | none => false
  | some s => !(s == "")

/-- Collector-wide server metadata (`EmcyTelemetry.metadata`). -/
structure ServerMeta where
  serverName : Option String
  serverVersion : Option String
  mcpServerId : Option String
deriving DecidableEq

/-- State of a `telemetry.ts EmcyTelemetry` instance. `timerActive`
models `flushTimer !== null`. -/
structure EmcyTelemetry where
  apiKey : String
  mcpServerId : Option String
  endpoint : String
  batchSize : Nat
  flushInterval : Nat
  debug : Bool
  queue : List ToolInvocation
  timerActive : Bool
  metadata : ServerMeta

/-- `telemetry.ts constructor(config)`: defaults applied with `||`, the
`mcpServerId` copied into metadata when truthy, queue empty, periodic
flush timer started. -/
def EmcyTelemetry.construct (config : EmcyConfig) : EmcyTelemetry :=
  { apiKey := config.apiKey
    mcpServerId := config.mcpServerId
    endpoint := orDefaultStr config.endpoint DEFAULT_ENDPOINT
    batchSize := orDefaultNat config.batchSize DEFAULT_BATCH_SIZE
    flushInterval := orDefaultNat config.flushInterval DEFAULT_FLUSH_INTERVAL
    debug := config.debug.getD false
    queue := []
    timerActive := true
    metadata :=
      if isTruthyStr config.mcpServerId then
        { serverName := none, serverVersion := none, mcpServerId := config.mcpServerId }
      else
        { serverName := none, serverVersion := none, mcpServerId := none } }

/-- `setServerInfo(name, version)`. -/
def EmcyTelemetry.setServerInfo (c : EmcyTelemetry) (name version : String) : EmcyTelemetry :=
  { c with metadata := { c.metadata with serverName := some name, serverVersion := some version } }

/-- `flush()`: no-op on an empty queue; otherwise drains the whole queue
into one batch handed to the transport. Returns the new state and the
batch sent, if any. `ts` is the flush-time ISO timestamp. -/
def EmcyTelemetry.flush (c : EmcyTelemetry) (ts : String) :
    EmcyTelemetry × Option TelemetryBatch :=
  if c.queue.length = 0 then (c, none)
  else
    ({ c with queue := [] },
     some { apiKey := c.apiKey, mcpServerId := c.mcpServerId, timestamp := ts,
            invocations := c.queue })

/-- `log(invocation)`: append to the queue; flush immediately when the
queue length reaches `batchSize` (the drain is synchronous). -/
def EmcyTelemetry.log (c : EmcyTelemetry) (inv : ToolInvocation) (ts : String) :
    EmcyTelemetry × Option TelemetryBatch :=
  let c1 := { c with queue := c.queue ++ [inv] }
  if c1.batchSize ≤ c1.queue.length then c1.flush ts else (c1, none)

/-- Logging a whole sequence of invocations, collecting every batch
flushed along the way. -/
def EmcyTelemetry.logAll (c : EmcyTelemetry) (invs : List ToolInvocation) (ts : String) :
    EmcyTelemetry × List TelemetryBatch :=
  match invs with
  | [] => (c, [])
  | inv :: rest =>
    let r1 := c.log inv ts
    let r2 := r1.1.logAll rest ts
    (r2.1, r1.2.toList ++ r2.2)

/-- `shutdown()`: clear the interval timer, then one final flush. -/
def EmcyTelemetry.shutdown (c : EmcyTelemetry) (ts : String) :
    EmcyTelemetry × Option TelemetryBatch :=
  EmcyTelemetry.flush { c with timerActive := false } ts

/-- One firing of the recurring interval started by `startFlushTimer`:
it flushes only while the timer has not been cleared. -/
def EmcyTelemetry.timerTick (c : EmcyTelemetry) (ts : String) :
    EmcyTelemetry × Option TelemetryBatch :=
  if c.timerActive then c.flush ts else (c, none)

/-- `extractOutput(result)`: a truthy object exposing a `status` key is
read as `{status, data}` and mapped to `{status, body}`; anything else
becomes `{body: result}` wholesale. -/
def EmcyTelemetry.extractOutput (result : Value) : Output :=
  match result with
  | Value.obj fields =>
    if (fields.lookup "status").isSome then
      { status := fields.lookup "status", body := fields.lookup "data" }
    else
      { status := none, body := some (Value.obj fields) }
  | v => { status := none, body := some v }

/-- `extractError(error)`: `Error` instances keep message/code/stack;
any other thrown value is stringified into `message`. -/
def EmcyTelemetry.extractError (e : Thrown) : ErrObj :=
  match e with
  | Thrown.err message code stack => { message := message, code := code, stack := stack }
  | Thrown.other v => { message := v.toStr, code := none, stack := none }

/-- Per-call options of `trace`. -/
structure TraceOptions where
  input : Option Value
  sessionId : Option String

/-- The invocation metadata built inside `trace`:
`{ sessionId: options?.sessionId, ...this.metadata }`. -/
def EmcyTelemetry.mergedMeta (options : Option TraceOptions) (meta : ServerMeta) : InvMetadata :=
  { sessionId := options.bind TraceOptions.sessionId
    agentId := none
    userId := none
    serverName := meta.serverName
    serverVersion := meta.serverVersion
    mcpServerId := meta.mcpServerId }

/-- `trace(toolName, fn, options?)`, with the awaited outcome of `fn()`
passed in as `outcome` (normal return or thrown value) and the ambient
clock/uuid as explicit arguments. Returns the ToolInvocation handed to
`log` and the outcome surfaced to the caller (return value or re-thrown
error). -/
def EmcyTelemetry.trace (toolName invocationId : String) (startTime endTime : Nat)
    (ts : String) (outcome : Except Thrown Value) (options : Option TraceOptions)
    (meta : ServerMeta) : ToolInvocation × Except Thrown Value :=
  match outcome with
  | Except.ok result =>
    ({ invocationId := invocationId
       toolName := toolName
       timestamp := ts
       duration := endTime - startTime
       success := true
       input := options.bind TraceOptions.input
       output := some (EmcyTelemetry.extractOutput result)
       error := none
       metadata := some (EmcyTelemetry.mergedMeta options meta) },
     Except.ok result)
  | Except.error e =>
    ({ invocationId := invocationId
       toolName := toolName
       timestamp := ts
       duration := endTime - startTime
       success := false
       input := options.bind TraceOptions.input
       output := none
       error := some (EmcyTelemetry.extractError e)
       metadata := some (EmcyTelemetry.mergedMeta options meta) },
     Except.error e)

/-- Outcome of one `fetch` call inside `TelemetryTransport.send`: a
response (with its `ok` flag and `status`) or a thrown network error. -/
inductive FetchOutcome where
  | resp (ok : Bool) (status : Nat)
  | exn
deriving DecidableEq

/-- The client-error test of `send`:
`response.status >= 400 && response.status < 500`. -/
def isClientErrorStatus (status : Nat) : Bool :=
  400 ≤ status && status < 500

/-- A retryable failure per `send`: a non-ok response outside 400–499,
or a network-level exception. -/
def retryable (o : FetchOutcome) : Bool :=
  match o with
  | FetchOutcome.resp ok status => !ok && !(isClientErrorStatus status)
  | FetchOutcome.exn => true

/-- A response the code accepts (`response.ok`). -/
def isSuccess (o : FetchOutcome) : Bool :=
  match o with
  | FetchOutcome.resp ok _ => ok
  | FetchOutcome.exn => false

/-- The retry loop of `transport.ts send`, from loop index `attempt`
with `fuel` iterations left (`fuel = MAX_RETRIES - attempt` at entry).
`oracle k` is the outcome of the fetch on loop iteration `k`. Returns
(delivered, number of attempts made, backoff delays awaited in order). -/
def TelemetryTransport.sendFrom (oracle : Nat → FetchOutcome) :
    Nat → Nat → Bool × Nat × List Nat
  | _, 0 => (false, 0, [])
  | attempt, fuel + 1 =>
    match oracle attempt with
    | FetchOutcome.resp true _ => (true, 1, [])
    | FetchOutcome.resp false status =>
      if isClientErrorStatus status then (false, 1, [])
      else
        if attempt < MAX_RETRIES - 1 then
          let rest := TelemetryTransport.sendFrom oracle (attempt + 1) fuel
          (rest.1, rest.2.1 + 1, RETRY_DELAY_MS * 2 ^ attempt :: rest.2.2)
        else
          let rest := TelemetryTransport.sendFrom oracle (attempt + 1) fuel
          (rest.1, rest.2.1 + 1, rest.2.2)
    | FetchOutcome.exn =>
        if attempt < MAX_RETRIES - 1 then
          let rest := TelemetryTransport.sendFrom oracle (attempt + 1) fuel
          (rest.1, rest.2.1 + 1, RETRY_DELAY_MS * 2 ^ attempt :: rest.2.2)
        else
          let rest := TelemetryTransport.sendFrom oracle (attempt + 1) fuel
          (rest.1, rest.2.1 + 1, rest.2.2)

/-- `transport.ts send(batch)`: the full loop,
`for (attempt = 0; attempt < MAX_RETRIES; attempt++)`. -/
def TelemetryTransport.send (oracle : Nat → FetchOutcome) : Bool × Nat × List Nat :=
  TelemetryTransport.sendFrom oracle 0 MAX_RETRIES

/-! ### Transport lemmas -/

lemma sendFrom_ok (oracle : Nat → FetchOutcome) (a fuel : Nat)
    (h : isSuccess (oracle a) = true) :
    TelemetryTransport.sendFrom oracle a (fuel + 1) = (true, 1, []) := by
  cases ho : oracle a with
  | resp ok status =>
    cases ok
    · rw [ho] at h; simp [isSuccess] at h
    · simp [TelemetryTransport.sendFrom, ho]
  | exn => rw [ho] at h; simp [isSuccess] at h

lemma sendFrom_client (oracle : Nat → FetchOutcome) (a fuel s : Nat)
    (ho : oracle a = FetchOutcome.resp false s)
    (hs : isClientErrorStatus s = true) :
    TelemetryTransport.sendFrom oracle a (fuel + 1) = (false, 1, []) := by
  simp [TelemetryTransport.sendFrom, ho, hs]

lemma sendFrom_retry (oracle : Nat → FetchOutcome) (a fuel : Nat)
    (h : retryable (oracle a) = true) (ha : a < MAX_RETRIES - 1) :
    TelemetryTransport.sendFrom oracle a (fuel + 1) =
      ((TelemetryTransport.sendFrom oracle (a + 1) fuel).1,
       (TelemetryTransport.sendFrom oracle (a + 1) fuel).2.1 + 1,
       RETRY_DELAY_MS * 2 ^ a :: (TelemetryTransport.sendFrom oracle (a + 1) fuel).2.2) := by
  cases ho : oracle a with
  | resp ok status =>
    rw [ho] at h
    cases ok
    · have hs : isClientErrorStatus status = false := by
        simpa [retryable] using h
      simp [TelemetryTransport.sendFrom, ho, hs, ha]
    · simp [retryable] at h
  | exn => simp [TelemetryTransport.sendFrom, ho, ha]

lemma sendFrom_retry_last (oracle : Nat → FetchOutcome) (a fuel : Nat)
    (h : retryable (oracle a) = true) (ha : ¬ a < MAX_RETRIES - 1) :
    TelemetryTransport.sendFrom oracle a (fuel + 1) =
      ((TelemetryTransport.sendFrom oracle (a + 1) fuel).1,
       (TelemetryTransport.sendFrom oracle (a + 1) fuel).2.1 + 1,
       (TelemetryTransport.sendFrom oracle (a + 1) fuel).2.2) := by
  cases ho : oracle a with
  | resp ok status =>
    rw [ho] at h
    cases ok
    · have hs : isClientErrorStatus status = false := by
        simpa [retryable] using h
      simp [TelemetryTransport.sendFrom, ho, hs, ha]
    · simp [retryable] at h
  | exn => simp [TelemetryTransport.sendFrom, ho, ha]

lemma sendFrom_attempts_le (oracle : Nat → FetchOutcome) :
    ∀ fuel a, (TelemetryTransport.sendFrom oracle a fuel).2.1 ≤ fuel := by
  intro fuel
  induction fuel with
  | zero => intro a; simp [TelemetryTransport.sendFrom]
  | succ n ih =>
    intro a
    cases ho : oracle a with
    | resp ok status =>
      cases ok
      · by_cases hs : isClientErrorStatus status = true
        · simp [TelemetryTransport.sendFrom, ho, hs]
        · have hs' : isClientErrorStatus status = false := by
            simpa using hs
          by_cases ha : a < MAX_RETRIES - 1
          · simp only [TelemetryTransport.sendFrom, ho, hs', if_pos ha, Bool.false_eq_true,
              if_false]
            have := ih (a + 1)
            omega
          · simp only [TelemetryTransport.sendFrom, ho, hs', if_neg ha, Bool.false_eq_true,
              if_false]
            have := ih (a + 1)
            omega
      · simp [TelemetryTransport.sendFrom, ho]
    | exn =>
      by_cases ha : a < MAX_RETRIES - 1
      · simp only [TelemetryTransport.sendFrom, ho, if_pos ha]
        have := ih (a + 1)
        omega
      · simp only [TelemetryTransport.sendFrom, ho, if_neg ha]
        have := ih (a + 1)
        omega

/-- C2: `Transport.send` makes at most 3 strictly sequential attempts; a
successful response at attempt k (after k retryable failures) returns
true immediately with backoff delays `RETRY_DELAY_MS * 2^(i)` before
attempt i+1; three retryable failures return false after delays of
1000ms and 2000ms. -/
theorem send_retry_schedule (oracle : Nat → FetchOutcome) :
    (TelemetryTransport.send oracle).2.1 ≤ MAX_RETRIES
    ∧ (∀ k, k < MAX_RETRIES → (∀ i, i < k → retryable (oracle i) = true) →
        isSuccess (oracle k) = true →
        TelemetryTransport.send oracle =
          (true, k + 1, (List.range k).map (fun i => RETRY_DELAY_MS * 2 ^ i)))
    ∧ ((∀ i, i < MAX_RETRIES → retryable (oracle i) = true) →
        TelemetryTransport.send oracle = (false, MAX_RETRIES, [RETRY_DELAY_MS, RETRY_DELAY_MS * 2])) := by
  refine ⟨sendFrom_attempts_le oracle MAX_RETRIES 0, ?_, ?_⟩
  · intro k hk hret hok
    have h3 : MAX_RETRIES = 3 := rfl
    rw [h3] at hk
    unfold TelemetryTransport.send
    interval_cases k
    · rw [show MAX_RETRIES = 2 + 1 from rfl, sendFrom_ok oracle 0 2 hok]
      simp
    · rw [show MAX_RETRIES = 2 + 1 from rfl,
        sendFrom_retry oracle 0 2 (hret 0 (by omega)) (by decide),
        show (2 : Nat) = 1 + 1 from rfl, sendFrom_ok oracle 1 1 hok]
      simp [List.range_succ]
    · rw [show MAX_RETRIES = 2 + 1 from rfl,
        sendFrom_retry oracle 0 2 (hret 0 (by omega)) (by decide),
        show (2 : Nat) = 1 + 1 from rfl,
        sendFrom_retry oracle 1 1 (hret 1 (by omega)) (by decide),
        show (1 : Nat) = 0 + 1 from rfl, sendFrom_ok oracle 2 0 hok]
      simp [List.range_succ]
  · intro hret
    unfold TelemetryTransport.send
    rw [show MAX_RETRIES = 2 + 1 from rfl,
      sendFrom_retry oracle 0 2 (hret 0 (by decide)) (by decide),
      show (2 : Nat) = 1 + 1 from rfl,
      sendFrom_retry oracle 1 1 (hret 1 (by decide)) (by decide),
      show (1 : Nat) = 0 + 1 from rfl,
      sendFrom_retry_last oracle 2 0 (hret 2 (by decide)) (by decide)]
    simp [TelemetryTransport.sendFrom, RETRY_DELAY_MS, MAX_RETRIES]

/-- A mock endpoint that always answers HTTP 500. -/
def oracle500 : Nat → FetchOutcome := fun _ => FetchOutcome.resp false 500

/-- Witness for C2: against an always-500 endpoint, `send` makes 3
attempts with delays 1000ms and 2000ms and returns false. -/
theorem send_retry_schedule_witness :
    TelemetryTransport.send oracle500 = (false, MAX_RETRIES, [RETRY_DELAY_MS, RETRY_DELAY_MS * 2]) :=
  (send_retry_schedule oracle500).2.2 (fun _ _ => rfl)

/-- C3: a 4xx response at attempt k makes `send` return false right
after that attempt, with no further attempts and no extra backoff; in
particular an always-401 endpoint gets exactly one attempt. -/
theorem send_client_error_no_retry (oracle : Nat → FetchOutcome) :
    (∀ k s, k < MAX_RETRIES → (∀ i, i < k → retryable (oracle i) = true) →
      oracle k = FetchOutcome.resp false s → 400 ≤ s → s < 500 →
      TelemetryTransport.send oracle =
        (false, k + 1, (List.range k).map (fun i => RETRY_DELAY_MS * 2 ^ i)))
    ∧ ((∀ i, oracle i = FetchOutcome.resp false 401) →
        TelemetryTransport.send oracle = (false, 1, [])) := by
  constructor
  · intro k s hk hret ho hs1 hs2
    have hs : isClientErrorStatus s = true := by
      simp [isClientErrorStatus]
      omega
    have h3 : MAX_RETRIES = 3 := rfl
    rw [h3] at hk
    unfold TelemetryTransport.send
    interval_cases k
    · rw [show MAX_RETRIES = 2 + 1 from rfl, sendFrom_client oracle 0 2 s ho hs]
      simp
    · rw [show MAX_RETRIES = 2 + 1 from rfl,
        sendFrom_retry oracle 0 2 (hret 0 (by omega)) (by decide),
        show (2 : Nat) = 1 + 1 from rfl, sendFrom_client oracle 1 1 s ho hs]
      simp [List.range_succ]
    · rw [show MAX_RETRIES = 2 + 1 from rfl,
        sendFrom_retry oracle 0 2 (hret 0 (by omega)) (by decide),
        show (2 : Nat) = 1 + 1 from rfl,
        sendFrom_retry oracle 1 1 (hret 1 (by omega)) (by decide),
        show (1 : Nat) = 0 + 1 from rfl, sendFrom_client oracle 2 0 s ho hs]
      simp [List.range_succ]
  · intro h401
    unfold TelemetryTransport.send
    rw [show MAX_RETRIES = 2 + 1 from rfl, sendFrom_client oracle 0 2 401 (h401 0) (by decide)]

/-- A mock endpoint that always answers HTTP 401. -/
def oracle401 : Nat → FetchOutcome := fun _ => FetchOutcome.resp false 401

/-- Witness for C3: against an always-401 endpoint, `send` makes exactly
one attempt and returns false with no delays. -/
theorem send_client_error_no_retry_witness :
    TelemetryTransport.send oracle401 = (false, 1, []) :=
  (send_client_error_no_retry oracle401).2 (fun _ => rfl)

/-! ### Collector theorems -/

/-- C1: `trace` is purely observational — the caller gets back exactly
the operation's own outcome, a normal result unchanged or the original
thrown value re-thrown, never swallowed or altered. -/
theorem trace_passthrough (toolName invocationId : String) (startTime endTime : Nat)
    (ts : String) (outcome : Except Thrown Value) (options : Option TraceOptions)
    (meta : ServerMeta) :
    (EmcyTelemetry.trace toolName invocationId startTime endTime ts outcome options meta).2
      = outcome := by
  cases outcome <;> rfl

/-- C6: every invocation record built by `trace` has exactly one of
`output`/`error` present, matching `success`. -/
theorem invocation_output_error_invariant (toolName invocationId : String)
    (startTime endTime : Nat) (ts : String) (outcome : Except Thrown Value)
    (options : Option TraceOptions) (meta : ServerMeta) :
    ((EmcyTelemetry.trace toolName invocationId startTime endTime ts outcome options meta).1.output.isSome
      = (EmcyTelemetry.trace toolName invocationId startTime endTime ts outcome options meta).1.success)
    ∧ ((EmcyTelemetry.trace toolName invocationId startTime endTime ts outcome options meta).1.error.isSome
      = !(EmcyTelemetry.trace toolName invocationId startTime endTime ts outcome options meta).1.success) := by
  cases outcome <;> simp [EmcyTelemetry.trace]

/-- C7: a successful result that is an object exposing a `status` key is
recorded as `{status: r.status, body: r.data}`; any other result is
wrapped whole as `body`; in particular tracing `async () => 42` queues
`output.body = 42`. -/
theorem extractOutput_shape (r : Value) (fields : List (String × Value)) :
    ((fields.lookup "status").isSome = true →
      EmcyTelemetry.extractOutput (Value.obj fields) =
        { status := fields.lookup "status", body := fields.lookup "data" })
    ∧ ((∀ fs, r = Value.obj fs → (fs.lookup "status").isSome = false) →
      EmcyTelemetry.extractOutput r = { status := none, body := some r })
    ∧ (∀ invocationId ts startTime endTime meta,
        (EmcyTelemetry.trace "x" invocationId startTime endTime ts
            (Except.ok (Value.num 42)) none meta).1.output
          = some { status := none, body := some (Value.num 42) }) := by
  refine ⟨?_, ?_, ?_⟩
  · intro h
    simp [EmcyTelemetry.extractOutput, h]
  · intro h
    cases r with
    | obj fs => simp [EmcyTelemetry.extractOutput, h fs rfl]
    | num n => rfl
    | str s => rfl
    | null => rfl
  · intro invocationId ts startTime endTime meta
    rfl

/-- A result object shaped like `{status: 200, data: "ok"}`. -/
def sampleStatusResult : List (String × Value) :=
  [("status", Value.num 200), ("data", Value.str "ok")]

/-- Witness for C7: `extractOutput {status: 200, data: "ok"}` yields
`{status: 200, body: "ok"}`. -/
theorem extractOutput_shape_witness :
    EmcyTelemetry.extractOutput (Value.obj sampleStatusResult) =
      { status := some (Value.num 200), body := some (Value.str "ok") } :=
  (extractOutput_shape (Value.num 0) sampleStatusResult).1 rfl

/-- C8: flushing an empty queue is a no-op handing nothing to the
transport, and every batch a flush does produce has a non-empty
invocations list. -/
theorem empty_flush_no_batch (c : EmcyTelemetry) (ts : String) :
    (c.queue = [] → c.flush ts = (c, none))
    ∧ (∀ b, (c.flush ts).2 = some b → b.invocations ≠ []) := by
  constructor
  · intro h
    simp [EmcyTelemetry.flush, h]
  · intro b hb
    by_cases h : c.queue.length = 0
    · simp [EmcyTelemetry.flush, h] at hb
    · rw [EmcyTelemetry.flush, if_neg h] at hb
      simp only [Option.some.injEq] at hb
      rw [← hb]
      intro he
      have he' : c.queue = [] := he
      exact h (by simp [he'])

/-- C10: falsy (`0` or absent) `batchSize`/`flushInterval` configs fall
back to the defaults 10 and 5000; no configuration yields a zero
effective batch size or flush interval. -/
theorem falsy_config_defaults (config : EmcyConfig) :
    ((config.batchSize = none ∨ config.batchSize = some 0) →
      (EmcyTelemetry.construct config).batchSize = DEFAULT_BATCH_SIZE)
    ∧ ((config.flushInterval = none ∨ config.flushInterval = some 0) →
      (EmcyTelemetry.construct config).flushInterval = DEFAULT_FLUSH_INTERVAL)
    ∧ ((EmcyTelemetry.construct config).batchSize ≠ 0)
    ∧ ((EmcyTelemetry.construct config).flushInterval ≠ 0) := by
  refine ⟨?_, ?_, ?_, ?_⟩
  · rintro (h | h) <;> simp [EmcyTelemetry.construct, orDefaultNat, h]
  · rintro (h | h) <;> simp [EmcyTelemetry.construct, orDefaultNat, h]
  · show orDefaultNat config.batchSize DEFAULT_BATCH_SIZE ≠ 0
    cases hc : config.batchSize with
    | none => simp [orDefaultNat, DEFAULT_BATCH_SIZE]
    | some n => by_cases hn : n = 0 <;> simp [orDefaultNat, hn, DEFAULT_BATCH_SIZE]
  · show orDefaultNat config.flushInterval DEFAULT_FLUSH_INTERVAL ≠ 0
    cases hc : config.flushInterval with
    | none => simp [orDefaultNat, DEFAULT_FLUSH_INTERVAL]
    | some n => by_cases hn : n = 0 <;> simp [orDefaultNat, hn, DEFAULT_FLUSH_INTERVAL]

/-- A configuration with explicit zero batch size and flush interval. -/
def cfgZero : EmcyConfig :=
  { apiKey := "k", endpoint := none, mcpServerId := none,
    batchSize := some 0, flushInterval := some 0, debug := none }

/-- Witness for C10: `batchSize: 0, flushInterval: 0` yield the defaults
10 and 5000. -/
theorem falsy_config_defaults_witness :
    (EmcyTelemetry.construct cfgZero).batchSize = DEFAULT_BATCH_SIZE ∧
    (EmcyTelemetry.construct cfgZero).flushInterval = DEFAULT_FLUSH_INTERVAL :=
  ⟨(falsy_config_defaults cfgZero).1 (Or.inr rfl),
   (falsy_config_defaults cfgZero).2.1 (Or.inr rfl)⟩

lemma log_no_trigger (c : EmcyTelemetry) (inv : ToolInvocation) (ts : String)
    (h : ¬ c.batchSize ≤ (c.queue ++ [inv]).length) :
    c.log inv ts = ({ c with queue := c.queue ++ [inv] }, none) := by
  simp only [EmcyTelemetry.log]
  split
  · next hc => exact absurd hc h
  · rfl

lemma log_trigger (c : EmcyTelemetry) (inv : ToolInvocation) (ts : String)
    (h : c.batchSize ≤ (c.queue ++ [inv]).length) :
    c.log inv ts =
      ({ c with queue := [] },
       some { apiKey := c.apiKey, mcpServerId := c.mcpServerId, timestamp := ts,
              invocations := c.queue ++ [inv] }) := by
  simp only [EmcyTelemetry.log]
  split
  · simp only [EmcyTelemetry.flush]
    split
    · next h0 =>
      have h0a : (c.queue ++ [inv]).length = 0 := h0
      simp at h0a
    · rfl
  · next hc => exact absurd h hc

lemma logAll_cons (c : EmcyTelemetry) (inv : ToolInvocation) (rest : List ToolInvocation)
    (ts : String) :
    c.logAll (inv :: rest) ts =
      (((c.log inv ts).1.logAll rest ts).1,
       (c.log inv ts).2.toList ++ ((c.log inv ts).1.logAll rest ts).2) := rfl

lemma logAll_no_flush (c : EmcyTelemetry) (invs : List ToolInvocation) (ts : String)
    (h : c.queue.length + invs.length < c.batchSize) :
    c.logAll invs ts = ({ c with queue := c.queue ++ invs }, []) := by
  induction invs generalizing c with
  | nil =>
    simp [EmcyTelemetry.logAll]
  | cons inv rest ih =>
    have hlt : ¬ (c.batchSize ≤ (c.queue ++ [inv]).length) := by
      simp only [List.length_append, List.length_cons] at h ⊢
      simp only [List.length_nil]
      omega
    rw [logAll_cons, log_no_trigger c inv ts hlt]
    dsimp only
    rw [ih { c with queue := c.queue ++ [inv] }
      (by simp only [List.length_append, List.length_cons, List.length_nil] at h ⊢; omega)]
    simp

lemma logAll_exact_flush (c : EmcyTelemetry) (invs : List ToolInvocation) (ts : String)
    (hne : invs ≠ []) (hlen : c.queue.length + invs.length = c.batchSize) :
    c.logAll invs ts =
      ({ c with queue := [] },
       [{ apiKey := c.apiKey, mcpServerId := c.mcpServerId, timestamp := ts,
          invocations := c.queue ++ invs }]) := by
  induction invs generalizing c with
  | nil => exact absurd rfl hne
  | cons inv rest ih =>
    cases rest with
    | nil =>
      have hge : c.batchSize ≤ (c.queue ++ [inv]).length := by
        simp only [List.length_append, List.length_cons, List.length_nil] at hlen ⊢
        omega
      rw [logAll_cons, log_trigger c inv ts hge]
      dsimp only
      simp [EmcyTelemetry.logAll]
    | cons inv2 rest2 =>
      have hlt : ¬ (c.batchSize ≤ (c.queue ++ [inv]).length) := by
        simp only [List.length_append, List.length_cons] at hlen ⊢
        simp only [List.length_nil]
        omega
      rw [logAll_cons, log_no_trigger c inv ts hlt]
      dsimp only
      rw [ih { c with queue := c.queue ++ [inv] } (by simp)
        (by simp only [List.length_append, List.length_cons, List.length_nil] at hlen ⊢; omega)]
      simp

/-- C4: from an empty queue, logging N < batchSize invocations keeps
exactly those N records queued in logging order with no flush; logging
exactly batchSize invocations produces exactly one flush whose batch
carries exactly those records in order and empties the queue. -/
theorem log_order_and_size_flush (c : EmcyTelemetry) (invs : List ToolInvocation)
    (ts : String) (h0 : c.queue = []) :
    (invs.length < c.batchSize →
      c.logAll invs ts = ({ c with queue := invs }, []))
    ∧ (invs.length = c.batchSize → 0 < c.batchSize →
      c.logAll invs ts =
        ({ c with queue := [] },
         [{ apiKey := c.apiKey, mcpServerId := c.mcpServerId, timestamp := ts,
            invocations := invs }])) := by
  constructor
  · intro h
    have := logAll_no_flush c invs ts (by rw [h0]; simpa)
    rw [h0] at this
    simpa using this
  · intro h hpos
    have hne : invs ≠ [] := by
      intro he
      rw [he] at h
      simp at h
      omega
    have := logAll_exact_flush c invs ts hne (by rw [h0]; simpa)
    rw [h0] at this
    simpa using this

/-- A plain successfully-completed invocation record. -/
def sampleInv : ToolInvocation :=
  { invocationId := "inv-1", toolName := "tool1", timestamp := "t0", duration := 100,
    success := true, input := none, output := none, error := none, metadata := none }

/-- A collector constructed with `{apiKey: "test-key", batchSize: 2}`. -/
def sampleCollector : EmcyTelemetry :=
  EmcyTelemetry.construct
    { apiKey := "test-key", endpoint := none, mcpServerId := none,
      batchSize := some 2, flushInterval := none, debug := none }

/-- Witness for C4: one log under batchSize 2 queues the record and
flushes nothing. -/
theorem log_order_and_size_flush_witness :
    sampleCollector.logAll [sampleInv] "ts" =
      ({ sampleCollector with queue := [sampleInv] }, []) :=
  (log_order_and_size_flush sampleCollector [sampleInv] "ts" rfl).1 (by decide)

/-- Witness for C8: flushing the freshly-constructed (empty) collector
performs no send. -/
theorem empty_flush_no_batch_witness :
    sampleCollector.flush "ts" = (sampleCollector, none) :=
  (empty_flush_no_batch sampleCollector "ts").1 rfl

lemma flush_metadata (c : EmcyTelemetry) (ts : String) :
    ((c.flush ts).1).metadata = c.metadata := by
  unfold EmcyTelemetry.flush
  split <;> rfl

lemma log_metadata (c : EmcyTelemetry) (inv : ToolInvocation) (ts : String) :
    ((c.log inv ts).1).metadata = c.metadata := by
  unfold EmcyTelemetry.log
  dsimp only
  split
  · exact flush_metadata { c with queue := c.queue ++ [inv] } ts
  · rfl

lemma shutdown_metadata (c : EmcyTelemetry) (ts : String) :
    ((c.shutdown ts).1).metadata = c.metadata := by
  unfold EmcyTelemetry.shutdown
  exact flush_metadata { c with timerActive := false } ts

lemma timerTick_metadata (c : EmcyTelemetry) (ts : String) :
    ((c.timerTick ts).1).metadata = c.metadata := by
  unfold EmcyTelemetry.timerTick
  split
  · exact flush_metadata c ts
  · rfl

/-- A configuration carrying a (truthy) mcpServerId. -/
def cfgWithServer : EmcyConfig :=
  { apiKey := "k", endpoint := none, mcpServerId := some "server-123",
    batchSize := none, flushInterval := none, debug := none }

/-- Counterexample to C9: the constructor itself writes the server
metadata — constructing with `mcpServerId: "server-123"` leaves
`metadata` non-empty before any `setServerInfo` call. -/
theorem metadata_written_by_constructor_cex :
    (EmcyTelemetry.construct cfgWithServer).metadata ≠
      { serverName := none, serverVersion := none, mcpServerId := none } := by
  decide

/-- C9 (amended): server metadata after construction is empty unless a
truthy `mcpServerId` was configured, in which case the constructor wrote
exactly that field; `setServerInfo` overwrites name/version (last write
wins, never cleared) and log/flush/shutdown/timer never touch the
metadata. -/
theorem server_metadata_lifecycle_amended (config : EmcyConfig) (c : EmcyTelemetry) :
    ((EmcyTelemetry.construct config).metadata =
      if isTruthyStr config.mcpServerId then
        { serverName := none, serverVersion := none, mcpServerId := config.mcpServerId }
      else
        { serverName := none, serverVersion := none, mcpServerId := none })
    ∧ ((EmcyTelemetry.construct config).metadata.serverName = none)
    ∧ ((EmcyTelemetry.construct config).metadata.serverVersion = none)
    ∧ (∀ name version, (c.setServerInfo name version).metadata =
        { c.metadata with serverName := some name, serverVersion := some version })
    ∧ (∀ inv ts, ((c.log inv ts).1).metadata = c.metadata)
    ∧ (∀ ts, ((c.flush ts).1).metadata = c.metadata)
    ∧ (∀ ts, ((c.shutdown ts).1).metadata = c.metadata)
    ∧ (∀ ts, ((c.timerTick ts).1).metadata = c.metadata) := by
  refine ⟨rfl, ?_, ?_, fun name version => rfl,
    fun inv ts => log_metadata c inv ts,
    fun ts => flush_metadata c ts,
    fun ts => shutdown_metadata c ts,
    fun ts => timerTick_metadata c ts⟩
  · show (if isTruthyStr config.mcpServerId then _ else _ : ServerMeta).serverName = none
    split <;> rfl
  · show (if isTruthyStr config.mcpServerId then _ else _ : ServerMeta).serverVersion = none
    split <;> rfl

lemma timerTick_inactive (c : EmcyTelemetry) (ts : String) (h : c.timerActive = false) :
    c.timerTick ts = (c, none) := by
  unfold EmcyTelemetry.timerTick
  rw [h]
  simp

lemma shutdown_timerActive (c : EmcyTelemetry) (ts : String) :
    (c.shutdown ts).1.timerActive = false := by
  unfold EmcyTelemetry.shutdown EmcyTelemetry.flush
  split <;> rfl

lemma shutdown_queue (c : EmcyTelemetry) (ts : String) :
    (c.shutdown ts).1.queue = [] := by
  unfold EmcyTelemetry.shutdown EmcyTelemetry.flush
  split
  · next h0 => exact List.length_eq_zero.mp h0
  · rfl

lemma shutdown_batchSize (c : EmcyTelemetry) (ts : String) :
    (c.shutdown ts).1.batchSize = c.batchSize := by
  unfold EmcyTelemetry.shutdown EmcyTelemetry.flush
  split <;> rfl

/-- C5: `shutdown` clears the recurring timer and performs one final
flush of everything queued; afterwards the timer is off for good — a
subsequently logged invocation stays queued (below batchSize) and a
timer tick past flushInterval produces no network batch. -/
theorem shutdown_stops_timer (c : EmcyTelemetry) (ts ts2 ts3 : String)
    (inv : ToolInvocation) (h : 2 ≤ c.batchSize) :
    ((c.shutdown ts).1.timerActive = false)
    ∧ ((c.shutdown ts).1.queue = [])
    ∧ ((c.shutdown ts).2 = (EmcyTelemetry.flush { c with timerActive := false } ts).2)
    ∧ (c.queue ≠ [] → (c.shutdown ts).2 =
        some { apiKey := c.apiKey, mcpServerId := c.mcpServerId, timestamp := ts,
               invocations := c.queue })
    ∧ (((c.shutdown ts).1.log inv ts2).2 = none)
    ∧ (((c.shutdown ts).1.log inv ts2).1.timerTick ts3 =
        (((c.shutdown ts).1.log inv ts2).1, none)) := by
  have hnt : ¬ (c.shutdown ts).1.batchSize ≤ ((c.shutdown ts).1.queue ++ [inv]).length := by
    rw [shutdown_batchSize, shutdown_queue]
    simp only [List.nil_append, List.length_cons, List.length_nil]
    omega
  have hlog := log_no_trigger (c.shutdown ts).1 inv ts2 hnt
  refine ⟨shutdown_timerActive c ts, shutdown_queue c ts, rfl, ?_, ?_, ?_⟩
  · intro hne
    unfold EmcyTelemetry.shutdown EmcyTelemetry.flush
    split
    · next h0 => exact absurd (List.length_eq_zero.mp h0) hne
    · rfl
  · rw [hlog]
  · rw [hlog]
    apply timerTick_inactive
    exact shutdown_timerActive c ts

/-- Witness for C5: for the batchSize-2 sample collector, shutting down,
logging one invocation and letting the interval fire yields no batch
from the tick. -/
theorem shutdown_stops_timer_witness :
    2 ≤ sampleCollector.batchSize ∧
    ((sampleCollector.shutdown "t1").1.log sampleInv "t2").1.timerTick "t3" =
      (((sampleCollector.shutdown "t1").1.log sampleInv "t2").1, none) :=
  ⟨by decide,
   (shutdown_stops_timer sampleCollector "t1" "t2" "t3" sampleInv (by decide)).2.2.2.2.2⟩
